import Mathlib

/-!
Verification of the Factus emission pipeline (Strapi-factus repository).

The services under `src/api/factus/services` and the credit-note services are
shallowly embedded below: JSON response bodies become the inductive `Json`,
JavaScript truthiness and string coercion are modelled explicitly, and every
service function appearing in a claim is translated into an executable Lean
definition.  Theorems about these definitions settle the claims.
-/

namespace Factus

/-- A JSON value, as received from the external Factus API.  Numbers are
modelled as integers (all identifiers, status codes and quantities the
services inspect are integral). -/
inductive Json where
  | null
  | bool (b : Bool)
  | num (n : Int)
  | str (s : String)
  | arr (elems : List Json)
  | obj (fields : List (String × Json))
deriving Repr

/-- Field access `o.k` on a JSON value: `none` models JavaScript `undefined`
(access on a non-object, or a missing key). -/
def Json.getField : Json → String → Option Json
  | .obj fs, k => (fs.find? (fun p => p.1 == k)).map (·.2)
  | _, _ => none

/-- Optional-chained path access, `o?.a?.b?...`. -/
def Json.getPath (j : Json) : List String → Option Json
  | [] => some j
  | k :: ks =>
    match j.getField k with
    | none => none
    | some v => v.getPath ks

/-- JavaScript truthiness of a possibly-undefined value:
`undefined`, `null`, `false`, `0` and `""` are falsy. -/
def jsTruthy : Option Json → Bool
  | none => false
  | some .null => false
  | some (.bool b) => b
  | some (.num n) => n != 0
  | some (.str s) => s != ""
  | some (.arr _) => true
  | some (.obj _) => true

/-- `typeof x === 'string'`. -/
def jsIsString : Option Json → Bool
  | some (.str _) => true
  | _ => false

/-- `typeof x === 'number'`. -/
def jsIsNumber : Option Json → Bool
  | some (.num _) => true
  | _ => false

/-- The JavaScript `String(x)` coercion (array elements that are `null`
serialize to the empty string inside `Array.prototype.toString`). -/
def jsString : Json → String
  | .null => "null"
  | .bool b => if b then "true" else "false"
  | .num n => toString n
  | .str s => s
  | .arr xs => String.intercalate ","
      (xs.map (fun e => match e with | .null => "" | e => jsStringShallow e))
  | .obj _ => "[object Object]"
where
  /-- one-level coercion used for array elements (nested arrays/objects are
  rare in the payloads the services touch; they coerce like at top level). -/
  jsStringShallow : Json → String
  | .null => "null"
  | .bool b => if b then "true" else "false"
  | .num n => toString n
  | .str s => s
  | .arr _ => ""
  | .obj _ => "[object Object]"

/-- `String(x)` applied to a field access (only ever used by the services
under a guard that ensures the field is present). -/
def jsStringOf (o : Option Json) : String :=
  jsString (o.getD .null)

/-- The JavaScript `String.prototype.trim()`: strip leading and trailing
whitespace (modelled structurally so that it evaluates in the kernel). -/
def jsTrim (s : String) : String :=
  ⟨((s.data.dropWhile Char.isWhitespace).reverse.dropWhile Char.isWhitespace).reverse⟩

/-!
## Response Reconciler: `extractFactusId`

Translated from `src/api/factus/services/factus-sender.ts` (lines 640–674);
the copy in `factus-emission.ts` (lines 427–455) is textually identical logic.
-/

/-- `extractFactusId(response)`: the cascade of guarded field reads used to
recover the external document identifier from a success response. -/
def extractFactusId (r : Json) : Option String :=
  -- `if (!response) return null`
  if ¬ jsTruthy (some r) then none
  -- Prioridad 1: `response.number && typeof response.number === 'string'`
  else if jsTruthy (r.getField "number") ∧ jsIsString (r.getField "number") then
    some (jsTrim (jsStringOf (r.getField "number")))
  -- Prioridad 2: `response?.data?.bill?.number` (must be a string)
  else if jsTruthy (r.getPath ["data", "bill", "number"]) ∧
      jsIsString (r.getPath ["data", "bill", "number"]) then
    some (jsTrim (jsStringOf (r.getPath ["data", "bill", "number"])))
  -- Prioridad 3: `response?.data?.bill?.id` (any truthy value)
  else if jsTruthy (r.getPath ["data", "bill", "id"]) then
    some (jsTrim (jsStringOf (r.getPath ["data", "bill", "id"])))
  -- `response.id && (typeof string || typeof number)`
  else if jsTruthy (r.getField "id") ∧
      (jsIsString (r.getField "id") ∨ jsIsNumber (r.getField "id")) then
    some (jsTrim (jsStringOf (r.getField "id")))
  -- `response.document_id && typeof 'string'`
  else if jsTruthy (r.getField "document_id") ∧ jsIsString (r.getField "document_id") then
    some (jsTrim (jsStringOf (r.getField "document_id")))
  -- `response.uuid && typeof 'string'`
  else if jsTruthy (r.getField "uuid") ∧ jsIsString (r.getField "uuid") then
    some (jsTrim (jsStringOf (r.getField "uuid")))
  else none

/-- A candidate of the identifier search: the coerced-and-trimmed value when
the guard holds, `none` otherwise.  `stringOnly` is the guard used for the
fields that must be strings; `anyTruthy` for `data.bill.id`;
`stringOrNumber` for the flat `id`. -/
def idCandidate.stringOnly (o : Option Json) : Option String :=
  if jsTruthy o ∧ jsIsString o then some (jsTrim (jsStringOf o)) else none

def idCandidate.anyTruthy (o : Option Json) : Option String :=
  if jsTruthy o then some (jsTrim (jsStringOf o)) else none

def idCandidate.stringOrNumber (o : Option Json) : Option String :=
  if jsTruthy o ∧ (jsIsString o ∨ jsIsNumber o) then some (jsTrim (jsStringOf o)) else none

/-- The six identifier sources of the specification, in the claimed strict
priority order: flat `number`, nested `data.bill.number`, nested
`data.bill.id`, flat `id`, flat `document_id`, flat `uuid`. -/
def idCandidates (r : Json) : List (Option String) :=
  [ idCandidate.stringOnly (r.getField "number"),
    idCandidate.stringOnly (r.getPath ["data", "bill", "number"]),
    idCandidate.anyTruthy (r.getPath ["data", "bill", "id"]),
    idCandidate.stringOrNumber (r.getField "id"),
    idCandidate.stringOnly (r.getField "document_id"),
    idCandidate.stringOnly (r.getField "uuid") ]

/-- First-match-wins extraction over the priority-ordered candidate list. -/
def firstMatchId (r : Json) : Option String :=
  if ¬ jsTruthy (some r) then none
  else ((idCandidates r).filterMap id).head?

/-- A concrete success response `{status:200, data:{bill:{number:"SETP000123"}}}`. -/
def sampleNestedResponse : Json :=
  .obj [("status", .num 200), ("data", .obj [("bill", .obj [("number", .str "SETP000123")])])]

/-- A concrete flat response `{number:"A1"}` with no `data` object. -/
def sampleFlatResponse : Json :=
  .obj [("number", .str "A1")]

/-- C1: for every success response object, `extractFactusId` tries, in strict
priority order, flat `number`, nested `data.bill.number`, nested
`data.bill.id`, flat `id`, flat `document_id`, flat `uuid`, and returns the
first matching field coerced to string and trimmed (`none` when no field
matches); in particular the nested sample extracts `"SETP000123"` and the
flat sample extracts `"A1"`. -/
theorem extractFactusId_priority_order :
    (∀ r : Json, extractFactusId r = firstMatchId r) ∧
    extractFactusId sampleNestedResponse = some "SETP000123" ∧
    extractFactusId sampleFlatResponse = some "A1" := by
  refine ⟨fun r => ?_, by decide, by decide⟩
  unfold extractFactusId firstMatchId idCandidates idCandidate.stringOnly
    idCandidate.anyTruthy idCandidate.stringOrNumber
  by_cases h0 : jsTruthy (some r)
  · simp only [h0, not_true_eq_false, if_false]
    by_cases h1 : jsTruthy (r.getField "number") ∧ jsIsString (r.getField "number") <;>
      by_cases h2 : jsTruthy (r.getPath ["data", "bill", "number"]) ∧
        jsIsString (r.getPath ["data", "bill", "number"]) <;>
      by_cases h3 : jsTruthy (r.getPath ["data", "bill", "id"]) <;>
      by_cases h4 : jsTruthy (r.getField "id") ∧
        (jsIsString (r.getField "id") ∨ jsIsNumber (r.getField "id")) <;>
      by_cases h5 : jsTruthy (r.getField "document_id") ∧
        jsIsString (r.getField "document_id") <;>
      by_cases h6 : jsTruthy (r.getField "uuid") ∧ jsIsString (r.getField "uuid") <;>
      simp [h1, h2, h3, h4, h5, h6]
  · simp [h0]

/-!
## Response Reconciler: `updateInvoiceStatus`

Translated from `src/api/factus/services/factus-emission.ts` (lines 640–711,
the revision that delegates identifier extraction to `extractFactusId`).
The persisted update record is computed as a pure function of the current
attempt counter, the raw response and the reported outcome.
-/

/-- JavaScript `a || b` over possibly-undefined values. -/
def jsOr2 (a b : Option Json) : Option Json :=
  if jsTruthy a then a else b

/-- Truthiness of a nullable string (`null` and `""` are falsy). -/
def jsStrTruthy : Option String → Bool
  | some s => s != ""
  | none => false

/-- The JavaScript `Number(x)` coercion; `none` models `NaN`.  (Fractional
strings and nested one-element arrays are outside the embedding: the services
only apply this to the integral `data.bill.id`.) -/
def jsToNumber : Json → Option Int
  | .num n => some n
  | .str s => if jsTrim s = "" then some 0 else (jsTrim s).toInt?
  | .bool b => some (if b then 1 else 0)
  | .null => some 0
  | .arr [] => some 0
  | .arr (_ :: _) => none
  | .obj _ => none

inductive EmitStatus where
  | exitosa
  | fallida
deriving Repr, DecidableEq

/-- The fields `updateInvoiceStatus` writes back to the invoice record.
`none` stands for an absent or `null` column value. -/
structure InvoiceUpdate where
  respuesta_factus : Json
  intentos_envio : Int
  estado_local : String
  estado_dian : Option Json
  factus_id : Option String
  factus_bill_id : Option (Option Int)
  factus_cude : Option Json
  factus_qr : Option Json
  url_pdf : Option Json
  url_xml : Option Json
  errores_factus : Option (List String)
deriving Repr

/-- The diagnostic recorded when a success response carries no usable id. -/
def noIdDiagnostic : String :=
  "No se pudo extraer el ID de documento de Factus. La factura puede estar creada en Factus pero no se puede descargar desde el sistema."

/-- `updateInvoiceStatus(invoiceId, factusResponse, status, errors)`:
the update record written for the invoice, given the invoice's current
`intentos_envio` value. -/
def updateInvoiceStatus (currentIntentos : Option Int) (resp : Json)
    (status : EmitStatus) (errors : Option (List String)) : InvoiceUpdate :=
  -- `updateData.intentos_envio = (currentInvoice.intentos_envio || 0) + 1`
  let intentos : Int :=
    (match currentIntentos with
      | some n => if n = 0 then 0 else n
      | none => 0) + 1
  let estadoDian := jsOr2 (resp.getField "status") (some (.str "Enviado"))
  match status with
  | .exitosa =>
    let factusDocumentId := extractFactusId resp
    let billIdField := resp.getPath ["data", "bill", "id"]
    let factusBillId : Option (Option Int) :=
      if jsTruthy billIdField then some (jsToNumber (billIdField.getD .null)) else none
    let billIdTruthy : Bool :=
      match factusBillId with
      | some (some n) => n != 0
      | _ => false
    if jsStrTruthy factusDocumentId || billIdTruthy then
      { respuesta_factus := resp
        intentos_envio := intentos
        estado_local := "Enviada"
        estado_dian := estadoDian
        factus_id := factusDocumentId
        factus_bill_id := factusBillId
        factus_cude := jsOr2 (resp.getPath ["data", "bill", "cufe"])
          (jsOr2 (resp.getField "cufe") (resp.getField "cude"))
        factus_qr := jsOr2 (resp.getPath ["data", "bill", "qr"]) (resp.getField "qr_code")
        url_pdf := jsOr2 (resp.getPath ["data", "bill", "public_url"])
          (jsOr2 (resp.getPath ["data", "bill", "pdf_url"]) (resp.getField "pdf_url"))
        url_xml := jsOr2 (resp.getPath ["data", "bill", "xml_url"]) (resp.getField "xml_url")
        errores_factus := none }
    else
      { respuesta_factus := resp
        intentos_envio := intentos
        estado_local := "Rechazada"
        estado_dian := estadoDian
        factus_id := none
        factus_bill_id := none
        factus_cude := none
        factus_qr := none
        url_pdf := none
        url_xml := none
        errores_factus := some [noIdDiagnostic] }
  | .fallida =>
    { respuesta_factus := resp
      intentos_envio := intentos
      estado_local := "Rechazada"
      estado_dian := none
      factus_id := none
      factus_bill_id := none
      factus_cude := none
      factus_qr := none
      url_pdf := none
      url_xml := none
      errores_factus := some (errors.getD ["Error desconocido"]) }

/-- A falsy JSON value has no fields, so any path through it is undefined. -/
lemma getPath_of_falsy (r : Json) (k : String) (ks : List String)
    (h : jsTruthy (some r) = false) : r.getPath (k :: ks) = none := by
  cases r <;> simp_all [Json.getPath, Json.getField, jsTruthy]

/-- When the identifier cascade finds nothing, `data.bill.id` in particular
was falsy (it is one of the cascade's sources). -/
lemma extract_none_billId_falsy (r : Json) (h : extractFactusId r = none) :
    jsTruthy (r.getPath ["data", "bill", "id"]) = false := by
  by_cases h0 : jsTruthy (some r) = true
  · by_contra hb
    rw [Bool.not_eq_false] at hb
    unfold extractFactusId at h
    split_ifs at h
  · rw [Bool.not_eq_true] at h0
    rw [getPath_of_falsy r _ _ h0]
    rfl

/-- C2: when a send reported HTTP success but no external identifier can be
extracted from the response, the reconciliation marks the invoice
`"Rechazada"` with the diagnostic message and a null `factus_id`, and in
particular does not mark it `"Enviada"`. -/
theorem updateInvoiceStatus_no_id_rejects (cur : Option Int) (resp : Json)
    (errs : Option (List String)) (h : extractFactusId resp = none) :
    (updateInvoiceStatus cur resp .exitosa errs).estado_local = "Rechazada" ∧
    (updateInvoiceStatus cur resp .exitosa errs).factus_id = none ∧
    (updateInvoiceStatus cur resp .exitosa errs).errores_factus = some [noIdDiagnostic] ∧
    (updateInvoiceStatus cur resp .exitosa errs).estado_local ≠ "Enviada" := by
  have hbill := extract_none_billId_falsy resp h
  unfold updateInvoiceStatus
  simp [h, hbill, jsStrTruthy]

/-- Witness for C2 at the concrete response `{status:200, message:"ok"}`. -/
theorem updateInvoiceStatus_no_id_rejects_witness :
    extractFactusId (Json.obj [("status", .num 200), ("message", .str "ok")]) = none ∧
    (updateInvoiceStatus (some 1) (Json.obj [("status", .num 200), ("message", .str "ok")])
        .exitosa none).estado_local = "Rechazada" :=
  ⟨by decide, (updateInvoiceStatus_no_id_rejects (some 1)
      (Json.obj [("status", .num 200), ("message", .str "ok")]) none (by decide)).1⟩

/-!
## Credit-note Field Mapper: `mapConceptoCorreccion`

Translated from the credit-note mapper service
(`src/unnamed/part_000`, lines 351–380).
-/

/-- A correction-concept input: the service receives `string | number`. -/
inductive ConceptoInput where
  | num (n : Int)
  | str (s : String)
deriving Repr, DecidableEq

/-- JavaScript `toLowerCase()` on one character, covering the Latin letters
(including the accented Spanish vowels and eñe) that the concept table uses. -/
def jsCharLower (c : Char) : Char :=
  if c.isUpper then c.toLower
  else match c with
    | 'Á' => 'á'
    | 'É' => 'é'
    | 'Í' => 'í'
    | 'Ó' => 'ó'
    | 'Ú' => 'ú'
    | 'Ñ' => 'ñ'
    | 'Ü' => 'ü'
    | c => c

/-- JavaScript `toLowerCase()` on a string. -/
def jsToLower (s : String) : String :=
  ⟨s.data.map jsCharLower⟩

/-- The concept synonym table (`conceptMap`), exactly as in the source. -/
def conceptMap : List (String × Int) :=
  [ ("devolucion", 1), ("devolución", 1), ("devolucion_parcial", 1),
    ("anulacion", 2), ("anulación", 2), ("anulacion_factura", 2),
    ("rebaja", 3), ("descuento", 3), ("descuento_parcial", 3), ("descuento_total", 3),
    ("ajuste_precio", 4), ("ajuste", 4),
    ("otros", 5), ("otro", 5),
    ("1", 1), ("2", 2), ("3", 3), ("4", 4), ("5", 5) ]

/-- `String(concepto || '')`: a falsy input (the number 0 or the empty
string) collapses to the empty string before coercion. -/
def conceptoInputString : ConceptoInput → String
  | .num n => if n = 0 then "" else toString n
  | .str s => s

/-- The normalized key the table is probed with:
`String(concepto || '').toLowerCase().trim()`. -/
def conceptoNormalized (c : ConceptoInput) : String :=
  jsTrim (jsToLower (conceptoInputString c))

/-- The table lookup with its default: `conceptMap[normalizedConcept] || 2`. -/
def conceptLookup (c : ConceptoInput) : Int :=
  ((conceptMap.find? (fun p => p.1 == conceptoNormalized c)).map (·.2)).getD 2

/-- `mapConceptoCorreccion(concepto)`: numeric passthrough for 1..5,
otherwise the normalized table lookup defaulting to 2 (annulment). -/
def mapConceptoCorreccion (concepto : ConceptoInput) : Int :=
  match concepto with
  | .num n => if 1 ≤ n ∧ n ≤ 5 then n else conceptLookup (.num n)
  | .str s => conceptLookup (.str s)

/-- An input is recognized when it is a number in 1..5 or its normalized
form is a key of the synonym table. -/
def recognizedConcepto (c : ConceptoInput) : Bool :=
  (match c with
    | .num n => decide (1 ≤ n ∧ n ≤ 5)
    | .str _ => false) ||
  (conceptMap.find? (fun p => p.1 == conceptoNormalized c)).isSome

/-- C7: numbers 1..5 pass through; the documented synonyms map to their
codes, case-insensitively (including accented forms) and after trimming;
digit strings map to their values; every unrecognized input yields 2. -/
theorem mapConceptoCorreccion_spec :
    (∀ n : Int, 1 ≤ n → n ≤ 5 → mapConceptoCorreccion (.num n) = n) ∧
    mapConceptoCorreccion (.str "devolucion") = 1 ∧
    mapConceptoCorreccion (.str "Devolución") = 1 ∧
    mapConceptoCorreccion (.str "ANULACION") = 2 ∧
    mapConceptoCorreccion (.str "rebaja") = 3 ∧
    mapConceptoCorreccion (.str " Descuento ") = 3 ∧
    mapConceptoCorreccion (.str "ajuste") = 4 ∧
    mapConceptoCorreccion (.str "Otros") = 5 ∧
    mapConceptoCorreccion (.str "1") = 1 ∧
    mapConceptoCorreccion (.str "2") = 2 ∧
    mapConceptoCorreccion (.str "3") = 3 ∧
    mapConceptoCorreccion (.str "4") = 4 ∧
    mapConceptoCorreccion (.str "5") = 5 ∧
    (∀ c : ConceptoInput, recognizedConcepto c = false → mapConceptoCorreccion c = 2) := by
  refine ⟨fun n h1 h5 => by simp [mapConceptoCorreccion, h1, h5],
    by decide, by decide, by decide, by decide, by decide, by decide, by decide,
    by decide, by decide, by decide, by decide, by decide,
    fun c hc => ?_⟩
  unfold recognizedConcepto at hc
  rw [Bool.or_eq_false_iff] at hc
  obtain ⟨hnum, hfind⟩ := hc
  have hfind' : conceptMap.find? (fun p => p.1 == conceptoNormalized c) = none :=
    Option.not_isSome_iff_eq_none.mp (by simp [hfind])
  cases c with
  | num n =>
    have : ¬ (1 ≤ n ∧ n ≤ 5) := by simpa using hnum
    simp [mapConceptoCorreccion, this, conceptLookup, hfind']
  | str s =>
    simp [mapConceptoCorreccion, conceptLookup, hfind']

/-- Witness for C7: numeric passthrough at 4 and the default at an
unrecognized string. -/
theorem mapConceptoCorreccion_spec_witness :
    mapConceptoCorreccion (.num 4) = 4 ∧
    recognizedConcepto (.str "motivo libre") = false ∧
    mapConceptoCorreccion (.str "motivo libre") = 2 :=
  ⟨mapConceptoCorreccion_spec.1 4 (by decide) (by decide), by decide,
    (mapConceptoCorreccion_spec.2.2.2.2.2.2.2.2.2.2.2.2.2) (.str "motivo libre") (by decide)⟩

/-!
## Numbering Allocator

Translated from the numbering service (`src/unnamed/part_006`).  The
database queries become explicit arguments: the list of stored ranges, and
the identity of the selected range.
-/

/-- A stored numbering range (`NumberingRange`): `desde`/`hasta` are the
resolution bounds, `consecutivo_actual` the running counter. -/
structure NumberingRange where
  id : Nat
  factus_id : Int
  nombre : String
  prefijo : String
  tipo_documento : String
  desde : Int
  hasta : Int
  consecutivo_actual : Int
  activo : Bool
deriving Repr, DecidableEq

/-- The range the `findMany` query returns: among ranges matching the
document type and flagged active, the most recently created one
(`sort: id desc, limit 1`). -/
def selectActiveRange (ranges : List NumberingRange) (tipo : String) :
    Option NumberingRange :=
  (ranges.filter (fun r => r.tipo_documento == tipo && r.activo)).foldl
    (fun best r =>
      match best with
      | none => some r
      | some b => if r.id > b.id then some r else some b) none

/-- The exhaustion error raised by `getActiveRange`. -/
def exhaustedMsg (r : NumberingRange) : String :=
  "❌ Rango de numeración agotado. " ++ r.prefijo ++ ": " ++ toString r.desde ++
    " - " ++ toString r.hasta ++ ". Actual: " ++ toString r.consecutivo_actual ++
    ". Crea un nuevo rango."

/-- The error raised when no active range exists for the document type. -/
def noActiveRangeMsg (tipo : String) : String :=
  "❌ No hay rangos de numeración activos para " ++ tipo ++
    ". Ve a Content Manager → Numbering Range y crea uno."

/-- `getActiveRange(tipoDocumento)`: select the active range and raise an
exhaustion error when `consecutivo_actual >= hasta`. -/
def getActiveRange (ranges : List NumberingRange) (tipo : String) :
    Except String NumberingRange :=
  match selectActiveRange ranges tipo with
  | none => .error (noActiveRangeMsg tipo)
  | some range =>
    if range.consecutivo_actual ≥ range.hasta then .error (exhaustedMsg range)
    else .ok range

/-- `getNextConsecutive(rangeId)`: the *current* counter, not yet
incremented; errors when it already exceeds the upper bound. -/
def getNextConsecutive (range? : Option NumberingRange) : Except String Int :=
  match range? with
  | none => .error "Rango no encontrado"
  | some range =>
    if range.consecutivo_actual > range.hasta then
      .error ("❌ Consecutivo " ++ toString range.consecutivo_actual ++
        " excede el límite del rango (" ++ toString range.hasta ++ ")")
    else .ok range.consecutivo_actual

/-- `incrementConsecutive(rangeId)`: unconditionally store and return
`consecutivo_actual + 1` (the over-limit check in the source is an empty
branch). -/
def incrementConsecutive (range : NumberingRange) : NumberingRange × Int :=
  let newConsecutive := range.consecutivo_actual + 1
  ({ range with consecutivo_actual := newConsecutive }, newConsecutive)

/-- The data accepted by `createRange`. -/
structure RangeData where
  factus_id : Int
  nombre : String
  prefijo : String
  desde : Int
  hasta : Int
  tipo_documento : Option String
deriving Repr

/-- `createRange(data)`: a fresh active range whose counter starts at
`desde`. -/
def createRange (newId : Nat) (data : RangeData) : NumberingRange :=
  { id := newId
    factus_id := data.factus_id
    nombre := data.nombre
    prefijo := data.prefijo
    tipo_documento := data.tipo_documento.getD "factura"
    desde := data.desde
    hasta := data.hasta
    consecutivo_actual := data.desde
    activo := true }

/-- The NumberingRange invariant of the specification:
`lower_bound ≤ counter ≤ upper_bound + 1`. -/
def rangeInvariant (r : NumberingRange) : Prop :=
  r.desde ≤ r.consecutivo_actual ∧ r.consecutivo_actual ≤ r.hasta + 1

instance (r : NumberingRange) : Decidable (rangeInvariant r) := by
  unfold rangeInvariant; infer_instance

/-- C8: whenever the selected active range has `counter ≥ upper_bound`,
requesting the active range raises the exhaustion error. -/
theorem getActiveRange_exhausted (ranges : List NumberingRange) (tipo : String)
    (r : NumberingRange) (hsel : selectActiveRange ranges tipo = some r)
    (hfull : r.consecutivo_actual ≥ r.hasta) :
    getActiveRange ranges tipo = .error (exhaustedMsg r) := by
  unfold getActiveRange
  rw [hsel]
  simp [hfull]

/-- The spec scenario for C8: one active invoice range with bounds [1,5]
and counter 5. -/
def exhaustedSample : NumberingRange :=
  { id := 1, factus_id := 8, nombre := "Rango FV", prefijo := "SETP",
    tipo_documento := "factura", desde := 1, hasta := 5,
    consecutivo_actual := 5, activo := true }

/-- Witness for C8: the [1,5]/counter-5 range raises the exhaustion error
on the next allocation attempt. -/
theorem getActiveRange_exhausted_witness :
    selectActiveRange [exhaustedSample] "factura" = some exhaustedSample ∧
    getActiveRange [exhaustedSample] "factura" = .error (exhaustedMsg exhaustedSample) :=
  ⟨by decide, getActiveRange_exhausted [exhaustedSample] "factura" exhaustedSample
    (by decide) (by decide)⟩

/-- The boundary state the invariant allows but increment breaks:
bounds [1,5] with the counter already at `hasta + 1`. -/
def boundaryRange : NumberingRange :=
  { id := 2, factus_id := 8, nombre := "Rango FV", prefijo := "SETP",
    tipo_documento := "factura", desde := 1, hasta := 5,
    consecutivo_actual := 6, activo := true }

/-- Counterexample to C9 as stated: `boundaryRange` satisfies the invariant
(`1 ≤ 6 ≤ 6`), yet `incrementConsecutive` takes its counter to 7 > 6, so the
invariant is not preserved by every call from an invariant-satisfying
state. -/
theorem incrementConsecutive_breaks_invariant :
    rangeInvariant boundaryRange ∧
    ¬ rangeInvariant (incrementConsecutive boundaryRange).1 := by
  constructor
  · exact ⟨by decide, by decide⟩
  · intro hinv
    exact absurd hinv.2 (by decide)

/-- C9 (amended): `createRange` establishes the invariant whenever the
supplied bounds satisfy `desde ≤ hasta + 1`, and `incrementConsecutive`
preserves it from every state whose counter has not yet passed the upper
bound (`counter ≤ upper_bound`). -/
theorem rangeInvariant_preserved (nid : Nat) (data : RangeData)
    (r : NumberingRange) (hdata : data.desde ≤ data.hasta + 1)
    (hinv : rangeInvariant r) (hroom : r.consecutivo_actual ≤ r.hasta) :
    rangeInvariant (createRange nid data) ∧
    rangeInvariant (incrementConsecutive r).1 := by
  obtain ⟨h1, _⟩ := hinv
  refine ⟨⟨le_refl _, hdata⟩, ⟨?_, ?_⟩⟩
  · exact le_trans h1 (by simp [incrementConsecutive])
  · simpa [incrementConsecutive, rangeInvariant] using hroom

/-- Witness for the amended C9 at concrete data and a mid-range state. -/
theorem rangeInvariant_preserved_witness :
    rangeInvariant (createRange 3
      { factus_id := 8, nombre := "R", prefijo := "SETP",
        desde := 1, hasta := 5, tipo_documento := none }) ∧
    rangeInvariant (incrementConsecutive exhaustedSample).1 :=
  rangeInvariant_preserved 3
    { factus_id := 8, nombre := "R", prefijo := "SETP",
      desde := 1, hasta := 5, tipo_documento := none }
    exhaustedSample (by decide) (by exact ⟨by decide, by decide⟩) (by decide)

/-!
## Field Mapper: date normalization

Translated from `src/api/factus/services/mapper.ts` (lines 163–189).  A
date-only value (a JS `Date` after `setHours(0,0,0,0)`) is modelled as the
number of days since 1970-01-01; `formatDate` renders it as `YYYY-MM-DD`
with the proleptic-Gregorian civil-from-days conversion.
-/

/-- `String(n).padStart(2, '0')` for the month and day fields. -/
def pad2 (n : Int) : String :=
  if n < 10 then "0" ++ toString n else toString n

/-- `formatDate(date)`: render a day number as `YYYY-MM-DD`
(`getFullYear`/`getMonth`/`getDate` of the Gregorian calendar). -/
def formatDate (day : Int) : String :=
  let z := day + 719468
  let era := z.fdiv 146097
  let doe := z - era * 146097
  let yoe := (doe - doe / 1460 + doe / 36524 - doe / 146096) / 365
  let y := yoe + era * 400
  let doy := doe - (365 * yoe + yoe / 4 - yoe / 100)
  let mp := (5 * doy + 2) / 153
  let d := doy - (153 * mp + 2) / 5 + 1
  let m := mp + (if mp < 10 then 3 else (-9 : Int))
  let y := y + (if m ≤ 2 then 1 else 0)
  toString y ++ "-" ++ pad2 m ++ "-" ++ pad2 d

/-- The dates carried into the payload (`payment_due_date`,
`order_reference.issue_date`, `billing_period`). -/
structure MappedDates where
  emission : Int
  due : Int
  emissionStr : String
  dueStr : String
deriving Repr, DecidableEq

/-- The date-validation step of `mapInvoiceToFactus`: clamp a future
emission date to today, and bump a due date lying before the (clamped)
emission date to emission + 30 days. -/
def normalizeInvoiceDates (today fechaEmision : Int)
    (fechaVencimiento : Option Int) : MappedDates :=
  let invoiceDate := if fechaEmision > today then today else fechaEmision
  let dueDate0 := match fechaVencimiento with
    | some v => v
    | none => invoiceDate
  let dueDate := if dueDate0 < invoiceDate then invoiceDate + 30 else dueDate0
  { emission := invoiceDate
    due := dueDate
    emissionStr := formatDate invoiceDate
    dueStr := formatDate dueDate }

/-- C4: a future emission date is clamped to today, and a due date earlier
than the (possibly clamped) emission date becomes emission + 30 days; both
are emitted through the `YYYY-MM-DD` formatter (anchored concretely:
day 0 renders as `1970-01-01` and day 20089 as `2025-01-01`). -/
theorem normalizeInvoiceDates_spec :
    (∀ today fe fv, fe > today →
      (normalizeInvoiceDates today fe fv).emission = today ∧
      (normalizeInvoiceDates today fe fv).emissionStr = formatDate today) ∧
    (∀ today fe v, v < (normalizeInvoiceDates today fe (some v)).emission →
      (normalizeInvoiceDates today fe (some v)).due =
        (normalizeInvoiceDates today fe (some v)).emission + 30 ∧
      (normalizeInvoiceDates today fe (some v)).dueStr =
        formatDate ((normalizeInvoiceDates today fe (some v)).emission + 30)) ∧
    formatDate 0 = "1970-01-01" ∧ formatDate 20089 = "2025-01-01" := by
  refine ⟨fun today fe fv hf => ?_, fun today fe v hv => ?_, by decide, by decide⟩
  · simp [normalizeInvoiceDates, hf]
  · unfold normalizeInvoiceDates at hv ⊢
    simp only at hv ⊢
    rw [if_pos hv]
    exact ⟨rfl, rfl⟩

/-- Witness for C4: emission day 19005 with today = 19000 is clamped, and a
due date 18990 before it is bumped 30 days past the clamped emission. -/
theorem normalizeInvoiceDates_spec_witness :
    ((normalizeInvoiceDates 19000 19005 none).emission = 19000 ∧
      (normalizeInvoiceDates 19000 19005 none).emissionStr = formatDate 19000) ∧
    ((normalizeInvoiceDates 19000 19005 (some 18990)).due =
        (normalizeInvoiceDates 19000 19005 (some 18990)).emission + 30 ∧
      (normalizeInvoiceDates 19000 19005 (some 18990)).dueStr =
        formatDate ((normalizeInvoiceDates 19000 19005 (some 18990)).emission + 30)) :=
  ⟨normalizeInvoiceDates_spec.1 19000 19005 none (by decide),
    normalizeInvoiceDates_spec.2.1 19000 19005 18990 (by decide)⟩

/-!
## Credential Manager: `getToken`

Translated from the auth service embedded in
`src/api/factus/services/factus-emission.ts` (lines 808–964), the revision
with the 10-minute renewal lead.  Database state becomes an explicit
configuration record; the two OAuth exchanges become an oracle recording
which external calls were issued.
-/

/-- The persisted Factus configuration row (credential cache). -/
structure FactusConfigState where
  id : Nat
  api_url : String
  api_username : Option String
  api_password : Option String
  token_acceso : Option String
  token_expiracion : Option Int
  refresh_token : Option String
deriving Repr, DecidableEq

/-- The two grants `POST /oauth/token` can be invoked with. -/
inductive AuthCall where
  | passwordGrant
  | refreshGrant
deriving Repr, DecidableEq

/-- The body of a token response. -/
structure TokenResponse where
  access_token : Option String
  expires_in : Option Int
  refresh_token : Option String
deriving Repr

/-- Outcome of one OAuth exchange; `failed` carries the message
`handleAuthError` converts the HTTP failure into. -/
inductive AuthCallResult where
  | ok (resp : TokenResponse)
  | failed (message : String)
deriving Repr

/-- The ambient world of a `getToken` call: the clock, the
`FACTUS_CLIENT_ID`/`FACTUS_CLIENT_SECRET` environment variables, and the
auth endpoint. -/
structure AuthEnv where
  now : Int
  envClientId : Option String
  envClientSecret : Option String
  oracle : AuthCall → AuthCallResult

/-- `expires_in || 3600` (default one hour). -/
def tokenLifetime (resp : TokenResponse) : Int :=
  match resp.expires_in with
  | some e => if e = 0 then 3600 else e
  | none => 3600

/-- Persist a fresh token: store the access token, `now + expires_in * 1000`
as the expiry, and the rotated refresh token if one was returned. -/
def persistToken (config : FactusConfigState) (env : AuthEnv)
    (resp : TokenResponse) (tok : String) : FactusConfigState :=
  { config with
    token_acceso := some tok
    token_expiracion := some (env.now + tokenLifetime resp * 1000)
    refresh_token :=
      if jsStrTruthy resp.refresh_token then resp.refresh_token
      else config.refresh_token }

/-- `refreshToken()`: refresh-grant exchange; errors are thrown to the
caller (which, inside `getToken`, swallows them and falls back). -/
def refreshTokenM (config : FactusConfigState) (env : AuthEnv) :
    Except String (String × FactusConfigState) × List AuthCall :=
  if ¬ jsStrTruthy config.refresh_token then
    (.error "❌ No hay refresh_token disponible", [])
  else
    match env.oracle .refreshGrant with
    | .failed m => (.error m, [.refreshGrant])
    | .ok resp =>
      match resp.access_token with
      | some tok =>
        if tok ≠ "" then (.ok (tok, persistToken config env resp tok), [.refreshGrant])
        else (.error "❌ Respuesta de refresh inválida", [.refreshGrant])
      | none => (.error "❌ Respuesta de refresh inválida", [.refreshGrant])

/-- The password-grant tail of `getToken`: validate the environment
credentials, call the endpoint, persist and return the new token. -/
def passwordGrantStep (config : FactusConfigState) (env : AuthEnv)
    (calls : List AuthCall) :
    Except String String × Option FactusConfigState × List AuthCall :=
  if ¬ (jsStrTruthy env.envClientId && jsStrTruthy env.envClientSecret) then
    (.error " Faltan variables de entorno: FACTUS_CLIENT_ID y FACTUS_CLIENT_SECRET",
      some config, calls)
  else
    match env.oracle .passwordGrant with
    | .failed m => (.error m, some config, calls ++ [.passwordGrant])
    | .ok resp =>
      match resp.access_token with
      | some tok =>
        if tok ≠ "" then
          (.ok tok, some (persistToken config env resp tok), calls ++ [.passwordGrant])
        else
          (.error "❌ Respuesta inválida: no se recibió access_token",
            some config, calls ++ [.passwordGrant])
      | none =>
        (.error "❌ Respuesta inválida: no se recibió access_token",
          some config, calls ++ [.passwordGrant])

/-- `getToken()`: return the cached token while its expiry lies more than
ten minutes in the future; otherwise try a refresh grant (when a refresh
token is cached), falling back to the password grant.  The result carries
the final stored configuration and the list of auth calls issued. -/
def getToken (config? : Option FactusConfigState) (env : AuthEnv) :
    Except String String × Option FactusConfigState × List AuthCall :=
  match config? with
  | none =>
    (.error " Configuración de Factus no encontrada. Ve a Content Manager → Factus Config y crea un registro.",
      none, [])
  | some config =>
    match config.token_acceso, config.token_expiracion with
    | some tok, some expiration =>
      if tok ≠ "" then
        -- `if (expiration > tenMinutesFromNow) return config.token_acceso`
        if expiration > env.now + 10 * 60000 then (.ok tok, some config, [])
        else if jsStrTruthy config.refresh_token then
          match refreshTokenM config env with
          | (.ok (newTok, cfg'), calls) => (.ok newTok, some cfg', calls)
          | (.error _, calls) =>
            -- refresh failed: continue to a fresh password grant
            let tail := passwordGrantStep config env calls
            tail
        else passwordGrantStep config env []
      else passwordGrantStep config env []
    | _, _ => passwordGrantStep config env []

/-- C6: when a cached access token exists and its stored expiry is more
than 10 minutes in the future, `getToken` returns the cached token, issues
no auth calls, and leaves the stored credentials untouched. -/
theorem getToken_cached (cfg : FactusConfigState) (env : AuthEnv)
    (tok : String) (expiration : Int)
    (htok : cfg.token_acceso = some tok) (hne : tok ≠ "")
    (hexp : cfg.token_expiracion = some expiration)
    (hfresh : expiration > env.now + 10 * 60000) :
    getToken (some cfg) env = (.ok tok, some cfg, []) := by
  unfold getToken
  simp only [htok, hexp]
  simp [hne, hfresh]
  intro hcontra
  omega

/-- A concrete configuration with a token valid for another hour. -/
def cachedConfigSample : FactusConfigState :=
  { id := 1, api_url := "https://api", api_username := none, api_password := none,
    token_acceso := some "tok-123", token_expiracion := some 3600000,
    refresh_token := some "ref-1" }

/-- Witness for C6: with the clock at 0 and expiry at 3 600 000 ms, the
cached token is returned with no calls and no state change, even though the
auth endpoint would fail if contacted. -/
theorem getToken_cached_witness :
    getToken (some cachedConfigSample)
      { now := 0, envClientId := none, envClientSecret := none,
        oracle := fun _ => .failed "network down" } =
      (.ok "tok-123", some cachedConfigSample, []) :=
  getToken_cached cachedConfigSample
    { now := 0, envClientId := none, envClientSecret := none,
      oracle := fun _ => .failed "network down" }
    "tok-123" 3600000 rfl (by decide) rfl (by decide)

/-!
## Emission pipeline: `emitInvoice`

Translated from `src/api/factus/services/factus-emission.ts` (lines
489–638, the revision with 409 handling; lines 42–209 are the same control
flow).  Each awaited collaborator becomes an `Except`-valued slot of an
environment; a thrown JavaScript error is an `Except.error` that the
function's outer `try/catch` must intercept.
-/

/-- `sub` occurs somewhere inside `s` (JavaScript `String.includes`). -/
def strIncludes (s sub : String) : Bool :=
  go s.data
where
  go : List Char → Bool
  | [] => sub.data.isPrefixOf []
  | c :: cs => sub.data.isPrefixOf (c :: cs) || go cs

/-- Write (or overwrite) one field of an object, as the spread
`{...data, number: x}` does. -/
def Json.setField (j : Json) (k : String) (v : Json) : Json :=
  match j with
  | .obj fs =>
    if fs.any (fun p => p.1 == k) then
      .obj (fs.map (fun p => if p.1 == k then (p.1, v) else p))
    else .obj (fs ++ [(k, v)])
  | _ => .obj [(k, v)]

structure ValidationResult where
  valid : Bool
  errors : List String
deriving Repr, DecidableEq

/-- What `sendInvoice` hands back to the emission pipeline. -/
structure SenderResult where
  success : Bool
  data : Option Json
  error : Option String
  statusCode : Option Nat
deriving Repr

/-- The invoice row, reduced to what `emitInvoice` branches on: whether the
populated `client` relation is present. -/
structure InvoiceRecord where
  client : Option Unit
deriving Repr

/-- The `FactusOperationResult` shape returned to the caller. -/
structure EmitResult where
  success : Bool
  message : String
  error : Option String
  data : Option Json
  statusCode : Option Nat
  timestamp : Int
deriving Repr

/-- The collaborators `emitInvoice` awaits, each able to throw. -/
structure EmissionEnv where
  now : Int
  validateInvoice : Except String ValidationResult
  findInvoice : Except String (Option InvoiceRecord)
  mapInvoiceToFactus : Except String Json
  validatePayload : ValidationResult
  getAuthToken : Except String String
  send : Except String SenderResult
  updateStatusOnFail : Except String Unit
  updateStatusOnSuccess : Except String Unit
  updateStatusInHandler : Except String Unit

/-- The operator guidance shown for a pending-invoice conflict. -/
def pendingAdviceText : String :=
  "Existe una factura anterior pendiente de envío a la DIAN. Por favor, ingrese al panel de Factus (sandbox.factus.com.co) y envíe o cancele la factura pendiente antes de crear una nueva."

/-- `sendResult.error?.includes(t) || sendResult.data?.message?.includes(t)`
(a non-string `message` field is outside the embedding: the sender only
produces string messages). -/
def mentionsPending (sr : SenderResult) : Bool :=
  (match sr.error with
    | some e => strIncludes e "factura pendiente"
    | none => false) ||
  (match sr.data.bind (fun d => d.getField "message") with
    | some (.str m) => strIncludes m "factura pendiente"
    | _ => false)

/-- The body of `emitInvoice` up to (but not including) its `catch`. -/
def emitBody (env : EmissionEnv) : Except String EmitResult := do
  -- 1. validateInvoice
  let validation ← env.validateInvoice
  if ¬ validation.valid then
    return { success := false, message := "❌ Factura inválida",
             error := some (String.intercalate ", " validation.errors),
             data := none, statusCode := none, timestamp := env.now }
  -- 2. load the invoice; `invoice.client` on a missing row throws
  let invoice? ← env.findInvoice
  let invoice ← match invoice? with
    | none => Except.error "Cannot read properties of null (reading 'client')"
    | some inv => pure inv
  if invoice.client.isNone then
    return { success := false, message := "❌ Factura sin cliente",
             error := some "La factura no tiene cliente asociado",
             data := none, statusCode := none, timestamp := env.now }
  -- 3./4. map the payload and validate it
  let _payload ← env.mapInvoiceToFactus
  let pv := env.validatePayload
  if ¬ pv.valid then
    return { success := false, message := "❌ Payload inválido",
             error := some (String.intercalate ", " pv.errors),
             data := none, statusCode := none, timestamp := env.now }
  -- 5. token and send
  let _token ← env.getAuthToken
  let sendResult ← env.send
  if ¬ sendResult.success then
    let isConflict := sendResult.statusCode == some 409 || mentionsPending sendResult
    let friendlyMessage :=
      if isConflict then "⚠️ Hay una factura pendiente por enviar a la DIAN"
      else (sendResult.error.getD "Error enviando factura")
    let friendlyError :=
      if isConflict then pendingAdviceText
      else (sendResult.error.getD "Error enviando factura")
    let _ ← env.updateStatusOnFail
    return { success := false, message := friendlyMessage,
             error := some friendlyError, data := none,
             statusCode := sendResult.statusCode, timestamp := env.now }
  -- 6. reconcile and answer
  let factusNumber := extractFactusId (sendResult.data.getD .null)
  let _ ← env.updateStatusOnSuccess
  return { success := true, message := "✅ Factura emitida exitosamente",
           error := none,
           data := some ((sendResult.data.getD .null).setField "number"
             (match factusNumber with | some s => .str s | none => .null)),
           statusCode := none, timestamp := env.now }

/-- `emitInvoice(invoiceId)`: the body wrapped in its `try/catch`; the
handler makes a best-effort `'fallida'` status write whose own failure is
swallowed, and always returns a failure result object. -/
def emitInvoice (env : EmissionEnv) : Except String EmitResult :=
  match emitBody env with
  | .ok r => .ok r
  | .error e =>
    match env.updateStatusInHandler with
    | _ =>
      .ok { success := false, message := "❌ Error al emitir factura",
            error := some (if e = "" then "Error desconocido" else e),
            data := none, statusCode := none, timestamp := env.now }

/-- C10: `emitInvoice` never propagates an exception — every environment
(including ones whose collaborators all throw) produces an `ok` result; a
thrown body error becomes the `{success:false, message, error, timestamp}`
object; and a failing status write inside the handler changes nothing about
the caller-visible outcome. -/
theorem emitInvoice_never_throws :
    (∀ env : EmissionEnv, ∃ r : EmitResult, emitInvoice env = .ok r) ∧
    (∀ (env : EmissionEnv) (e : String), emitBody env = .error e →
      emitInvoice env = .ok { success := false,
                              message := "❌ Error al emitir factura",
                              error := some (if e = "" then "Error desconocido" else e),
                              data := none, statusCode := none,
                              timestamp := env.now }) ∧
    (∀ (env : EmissionEnv) (e' : String),
      emitInvoice { env with updateStatusInHandler := .error e' } =
        emitInvoice { env with updateStatusInHandler := .ok () }) := by
  refine ⟨fun env => ?_, fun env e h => ?_, fun env e' => rfl⟩
  · unfold emitInvoice
    cases h : emitBody env with
    | ok r => exact ⟨r, rfl⟩
    | error e =>
      exact ⟨_, by cases env.updateStatusInHandler <;> rfl⟩
  · unfold emitInvoice
    rw [h]

/-- An environment whose very first collaborator throws and whose handler
status write throws as well. -/
def throwingEnv : EmissionEnv :=
  { now := 0, validateInvoice := .error "db down",
    findInvoice := .error "db down", mapInvoiceToFactus := .error "map",
    validatePayload := { valid := true, errors := [] },
    getAuthToken := .error "auth", send := .error "net",
    updateStatusOnFail := .error "u1", updateStatusOnSuccess := .error "u2",
    updateStatusInHandler := .error "u3" }

/-- Witness for C10: with everything throwing, the caller still receives a
failure result carrying the original message. -/
theorem emitInvoice_never_throws_witness :
    emitBody throwingEnv = .error "db down" ∧
    emitInvoice throwingEnv = .ok { success := false,
                                    message := "❌ Error al emitir factura",
                                    error := some (if "db down" = "" then "Error desconocido" else "db down"),
                                    data := none, statusCode := none,
                                    timestamp := 0 } :=
  ⟨rfl, emitInvoice_never_throws.2.1 throwingEnv "db down" rfl⟩

/-!
## Transmission Sender: `parseErrorMessage` and `sendInvoice`

Translated from `src/api/factus/services/factus-sender.ts` (lines 74–276
and 720–805).  `JSON.stringify` is modelled in both forms the source
uses: compact (the inner fallbacks at lines 728, 740 and 767) and
pretty-printed with a 2-space indent (`JSON.stringify(data, null, 2)` at
line 778).  The error-handling path of a 4xx response can itself throw a
`TypeError` — `Object.keys(errorData)` on a null body (line 179),
`err.field` on a null `errors` entry (lines 195 and 739), `detail.msg` on
a null `details` entry and `detail.loc?.join` on a present non-array
`loc` (line 766) — and a throw there is caught and *retried*, so those
throws are modelled explicitly.
-/

/-- A hexadecimal digit, lower case. -/
def hexDigit (n : Nat) : Char :=
  if n < 10 then Char.ofNat (48 + n) else Char.ofNat (87 + n)

/-- One character of a JSON-escaped string (`JSON.stringify` escapes the
quote, the backslash and control characters). -/
def jsonEscapeChar (c : Char) : String :=
  if c = '"' then "\\\""
  else if c = '\\' then "\\\\"
  else if c = '\n' then "\\n"
  else if c = '\t' then "\\t"
  else if c = '\r' then "\\r"
  else if c.toNat = 8 then "\\b"
  else if c.toNat = 12 then "\\f"
  else if c.toNat < 32 then
    "\\u00" ++ ⟨[hexDigit (c.toNat / 16), hexDigit (c.toNat % 16)]⟩
  else String.singleton c

/-- A JSON string literal. -/
def jsonQuote (s : String) : String :=
  "\"" ++ String.join (s.data.map jsonEscapeChar) ++ "\""

mutual
/-- `JSON.stringify(x)` in its compact form (no whitespace). -/
def jsonStringify : Json → String
  | .null => "null"
  | .bool b => if b then "true" else "false"
  | .num n => toString n
  | .str s => jsonQuote s
  | .arr xs => "[" ++ jsonStringifyElems xs ++ "]"
  | .obj fs => "\x7b" ++ jsonStringifyFields fs ++ "\x7d"

def jsonStringifyElems : List Json → String
  | [] => ""
  | [x] => jsonStringify x
  | x :: y :: xs => jsonStringify x ++ "," ++ jsonStringifyElems (y :: xs)

def jsonStringifyFields : List (String × Json) → String
  | [] => ""
  | [(k, v)] => jsonQuote k ++ ":" ++ jsonStringify v
  | (k, v) :: f :: fs =>
    jsonQuote k ++ ":" ++ jsonStringify v ++ "," ++ jsonStringifyFields (f :: fs)
end

/-- `depth` levels of the 2-space indent of `JSON.stringify(·, null, 2)`. -/
def jsonIndent (depth : Nat) : String :=
  ⟨List.replicate (2 * depth) ' '⟩

mutual
/-- `JSON.stringify(x, null, 2)`: pretty-printed, 2-space indent, `": "`
between key and value, one element per line, empty containers inline. -/
def jsonStringifyPretty (depth : Nat) : Json → String
  | .null => "null"
  | .bool b => if b then "true" else "false"
  | .num n => toString n
  | .str s => jsonQuote s
  | .arr [] => "[]"
  | .arr (x :: xs) =>
    "[\n" ++ jsonStringifyPrettyElems (depth + 1) (x :: xs) ++ "\n" ++
      jsonIndent depth ++ "]"
  | .obj [] => "\x7b\x7d"
  | .obj (f :: fs) =>
    "\x7b\n" ++ jsonStringifyPrettyFields (depth + 1) (f :: fs) ++ "\n" ++
      jsonIndent depth ++ "\x7d"

def jsonStringifyPrettyElems (depth : Nat) : List Json → String
  | [] => ""
  | [x] => jsonIndent depth ++ jsonStringifyPretty depth x
  | x :: y :: xs =>
    jsonIndent depth ++ jsonStringifyPretty depth x ++ ",\n" ++
      jsonStringifyPrettyElems depth (y :: xs)

def jsonStringifyPrettyFields (depth : Nat) : List (String × Json) → String
  | [] => ""
  | [(k, v)] => jsonIndent depth ++ jsonQuote k ++ ": " ++ jsonStringifyPretty depth v
  | (k, v) :: f :: fs =>
    jsonIndent depth ++ jsonQuote k ++ ": " ++ jsonStringifyPretty depth v ++ ",\n" ++
      jsonStringifyPrettyFields depth (f :: fs)
end

/-- `typeof x === 'object'` for a present value (`null` has typeof
`'object'` too; the truthiness guards that accompany this check in the
source exclude it). -/
def jsIsObjectType : Option Json → Bool
  | some (.obj _) => true
  | some (.arr _) => true
  | some .null => true
  | _ => false

/-- A present non-empty array (`Array.isArray(x) && x.length > 0`). -/
def jsNonEmptyArray : Option Json → Bool
  | some (.arr (_ :: _)) => true
  | _ => false

/-- The elements of an array field. -/
def arrayElems : Option Json → List Json
  | some (.arr xs) => xs
  | _ => []

/-- `Object.entries(x)` (array entries are index-keyed). -/
def objEntries : Option Json → List (String × Json)
  | some (.obj fs) => fs
  | some (.arr xs) => (xs.enum.map (fun p => (toString p.1, p.2)))
  | _ => []

/-- `Array.prototype.join(sep)` (null elements render empty). -/
def jsJoinArr (sep : String) (xs : List Json) : String :=
  String.intercalate sep (xs.map (fun j => match j with | .null => "" | j => jsString j))

/-- Whether the JSON value is the literal `null`. -/
def isNullJson : Json → Bool
  | .null => true
  | _ => false

/-- The `TypeError` a null `errors` entry raises on `err.field`
(factus-sender.ts:739, and again in the diagnostic `forEach` at :195);
non-null entries (objects, primitives) read their properties without
throwing. -/
def errorsEntryThrowMsg (err : Json) : Option String :=
  if isNullJson err then some "Cannot read properties of null (reading 'field')"
  else none

/-- One non-throwing entry of a `errors: [{field?, message}]` array:
`` `[${field}] ` `` when the field is truthy, then `message` or the
compact serialization of the entry. -/
def errorEntryText (err : Json) : String :=
  let fieldText :=
    if jsTruthy (err.getField "field") then "[" ++ jsStringOf (err.getField "field") ++ "] "
    else ""
  let msg :=
    if jsTruthy (err.getField "message") then jsStringOf (err.getField "message")
    else jsonStringify err
  fieldText ++ msg

/-- One entry of a `validation_errors` map. -/
def validationEntryText (p : String × Json) : String :=
  match p.2 with
  | .arr xs => p.1 ++ ": " ++ jsJoinArr ", " xs
  | v => p.1 ++ ": " ++ jsString v

/-- The `TypeError` a `details` entry can raise: `detail.msg` on a null
entry, or `detail.loc?.join` when `loc` is present, not nullish and not
an array (factus-sender.ts:766). -/
def detailThrowMsg (detail : Json) : Option String :=
  match detail with
  | .str _ => none
  | .null => some "Cannot read properties of null (reading 'msg')"
  | _ =>
    if jsTruthy (detail.getField "msg") then
      match detail.getField "loc" with
      | none => none
      | some .null => none
      | some (.arr _) => none
      | some _ => some "detail.loc?.join is not a function"
    else none

/-- One non-throwing entry of a `details` array: strings pass through; a
truthy `msg` renders `[${detail.loc?.join('.')}] ${detail.msg}` — a
nullish `loc` gives the text `undefined`, and a present non-array `loc`
is a throw handled by `detailThrowMsg`, never reaching this function —
else the compact serialization. -/
def detailEntryText (detail : Json) : String :=
  match detail with
  | .str s => s
  | _ =>
    if jsTruthy (detail.getField "msg") then
      let locText := match detail.getField "loc" with
        | some (.arr xs) => jsJoinArr "." xs
        | _ => "undefined"
      "[" ++ locText ++ "] " ++ jsStringOf (detail.getField "msg")
    else jsonStringify detail

/-- `parseErrorMessage(data)`: the ordered cascade of known error-body
shapes used to produce a human-readable message for 4xx responses.
`Except.error` is the `TypeError` thrown at the first null `errors` entry
(factus-sender.ts:739) or the first bad `details` entry (:766);
`Except.ok` is the returned message (the final fallback is the
pretty-printed `JSON.stringify(data, null, 2)` of line 778). -/
def parseErrorMessageE (data : Json) : Except String String :=
  if ¬ jsTruthy (some data) then .ok "Error desconocido"
  -- `data.error` as a string
  else if jsTruthy (data.getField "error") ∧ jsIsString (data.getField "error") then
    .ok (jsStringOf (data.getField "error"))
  -- `data.error` as an object: its `message`, else its compact serialization
  else if jsTruthy (data.getField "error") ∧ jsIsObjectType (data.getField "error") then
    let err := (data.getField "error").getD .null
    if jsTruthy (err.getField "message") then .ok (jsStringOf (err.getField "message"))
    else .ok (jsonStringify err)
  -- generic `message`
  else if jsTruthy (data.getField "message") ∧ jsIsString (data.getField "message") then
    .ok (jsStringOf (data.getField "message"))
  -- `errors: [{field?, message}]` — the map throws at the first null entry
  else if jsTruthy (data.getField "errors") ∧ jsNonEmptyArray (data.getField "errors") then
    match (arrayElems (data.getField "errors")).findSome? errorsEntryThrowMsg with
    | some m => .error m
    | none =>
      .ok (String.intercalate ", " ((arrayElems (data.getField "errors")).map errorEntryText))
  -- `validation_errors: { field: messages }`
  else if jsTruthy (data.getField "validation_errors") ∧
      jsIsObjectType (data.getField "validation_errors") then
    .ok ("Errores de validación: " ++
      String.intercalate "; " ((objEntries (data.getField "validation_errors")).map validationEntryText))
  -- generic `detail`
  else if jsTruthy (data.getField "detail") ∧ jsIsString (data.getField "detail") then
    .ok (jsStringOf (data.getField "detail"))
  -- `details: [...]` — the map throws at the first null or bad-loc entry
  else if jsTruthy (data.getField "details") ∧ jsNonEmptyArray (data.getField "details") then
    match (arrayElems (data.getField "details")).findSome? detailThrowMsg with
    | some m => .error m
    | none =>
      .ok (String.intercalate "; " ((arrayElems (data.getField "details")).map detailEntryText))
  -- `code` + `description`
  else if jsTruthy (data.getField "code") ∧ jsTruthy (data.getField "description") then
    .ok (jsStringOf (data.getField "code") ++ ": " ++ jsStringOf (data.getField "description"))
  -- fallback: `JSON.stringify(data, null, 2)`
  else if jsIsObjectType (some data) then .ok (jsonStringifyPretty 0 data)
  else .ok "Error desconocido"

/-- What one loop iteration of `sendInvoice` observes from the outside
world: an HTTP response, a request that got no answer, or a failure (for
example in `getAuthConfig`) before the request was issued. -/
inductive AttemptOutcome where
  | response (status : Nat) (body : Json)
  | noResponse (message : String)
  | setupError (message : String)
deriving Repr

/-- A caught JavaScript error: an axios rejection carrying the response, an
axios rejection carrying only the request, or a plain `Error`. -/
inductive CaughtError where
  | httpResponse (status : Nat) (body : Json) (message : String)
  | requestOnly (message : String)
  | plain (message : String)
deriving Repr

/-- `getErrorMessage(lastError)`. -/
def caughtMessage : Option CaughtError → String
  | some (.httpResponse _ _ m) => m
  | some (.requestOnly m) => m
  | some (.plain m) => m
  | none => "Error desconocido"

/-- The observable trace of a `sendInvoice` call: how many HTTP attempts
were issued, which backoff sleeps were awaited, and the returned value. -/
structure SendTrace where
  attempts : Nat
  waits : List Nat
  result : SenderResult
deriving Repr

/-- The value returned once every attempt is exhausted:
`` `Error después de ${retries + 1} intentos: ${getErrorMessage(lastError)}` ``. -/
def finalFailureResult (retries : Nat) (lastErr : Option CaughtError) : SenderResult :=
  { success := false, data := none,
    error := some ("Error después de " ++ toString (retries + 1) ++ " intentos: " ++
      caughtMessage lastErr),
    statusCode := none }

/-- `errorData.errors` is a truthy array containing a null entry: the
diagnostic `forEach` (factus-sender.ts:192-199) then throws on
`err.field`, even when `parseErrorMessage` itself returned early. -/
def errorsHasNullEntry (body : Json) : Bool :=
  jsTruthy (body.getField "errors") &&
    (match body.getField "errors" with
      | some (.arr xs) => xs.any isNullJson
      | _ => false)

/-- The `TypeError` (if any) the 4xx diagnostic-and-parse block raises, in
source order: `Object.keys(errorData)` on a null body
(factus-sender.ts:179), then a throw inside `parseErrorMessage` (:187),
then the `forEach` over `errors` (:192-199).  `none` means the handler
completes and the 4xx failure is returned.  (The block's reads of
`payload.customer`/`payload.establishment` cannot throw: both are
required, non-optional fields of the `FactusInvoicePayload` type.) -/
def fourXXThrowMsg (body : Json) : Option String :=
  if isNullJson body then some "Cannot convert undefined or null to object"
  else
    match parseErrorMessageE body with
    | .error m => some m
    | .ok _ =>
      if errorsHasNullEntry body then
        some "Cannot read properties of null (reading 'field')"
      else none

/-- The `for (let attempt = 0; attempt <= retries; attempt++)` loop, one
list element per pending attempt index.  `axios` is configured with
`validateStatus: status < 500`, so 2xx returns success, 4xx returns the
parsed failure immediately, 3xx throws a plain `Server error`, ≥ 500
rejects with the response attached, and the catch retries everything that
did not return — including a `TypeError` thrown inside the 4xx
diagnostic-and-parse block itself, which carries neither `.response` nor
`.request`.  (The catch's own 4xx arm is unreachable under this
`validateStatus` and has no counterpart here.) -/
def sendLoopGo (env : Nat → AttemptOutcome) (retries retryDelay : Nat) :
    List Nat → Option CaughtError → List Nat → Nat → SendTrace
  | [], lastErr, waits, made =>
    { attempts := made, waits := waits, result := finalFailureResult retries lastErr }
  | attempt :: rest, _lastErr, waits, made =>
    -- `if (attempt > 0) await this.sleep(retryDelay * attempt)`
    let waits' := if 0 < attempt then waits ++ [retryDelay * attempt] else waits
    match env attempt with
    | .setupError m =>
      sendLoopGo env retries retryDelay rest (some (.plain m)) waits' made
    | .noResponse m =>
      sendLoopGo env retries retryDelay rest (some (.requestOnly m)) waits' (made + 1)
    | .response s body =>
      if 200 ≤ s ∧ s < 300 then
        { attempts := made + 1, waits := waits',
          result := { success := true, data := some body, error := none,
                      statusCode := some s } }
      else if 400 ≤ s ∧ s < 500 then
        match fourXXThrowMsg body with
        | some m =>
          -- the TypeError is caught, logged, and the attempt is retried
          sendLoopGo env retries retryDelay rest (some (.plain m)) waits' (made + 1)
        | none =>
          { attempts := made + 1, waits := waits',
            result := { success := false, data := some body,
                        error := (parseErrorMessageE body).toOption,
                        statusCode := some s } }
      else if s < 500 then
        sendLoopGo env retries retryDelay rest
          (some (.plain ("Server error: " ++ toString s))) waits' (made + 1)
      else
        sendLoopGo env retries retryDelay rest
          (some (.httpResponse s body ("Request failed with status code " ++ toString s)))
          waits' (made + 1)

/-- `sendInvoice(payload, {retries, retryDelay})`: run the attempt loop
over indices `0..retries`. -/
def sendInvoice (env : Nat → AttemptOutcome) (retries retryDelay : Nat) : SendTrace :=
  sendLoopGo env retries retryDelay (List.range (retries + 1)) none [] 0

/-- An attempt outcome the sender retries: a 5xx response, or no response. -/
def retryableOutcome : AttemptOutcome → Prop
  | .response s _ => 500 ≤ s
  | .noResponse _ => True
  | .setupError _ => False

/-- The caught error a retryable outcome leaves in `lastError`. -/
def caughtOf : AttemptOutcome → CaughtError
  | .response s body => .httpResponse s body ("Request failed with status code " ++ toString s)
  | .noResponse m => .requestOnly m
  | .setupError m => .plain m

/-- Running the loop over retryable outcomes only: every pending index is
attempted, its backoff (when positive) is awaited, and the trace ends in
the exhausted-attempts failure remembering the last error. -/
lemma sendLoopGo_retryable (env : Nat → AttemptOutcome) (retries d : Nat)
    (l : List Nat) (hl : ∀ i ∈ l, retryableOutcome (env i)) :
    ∀ (lastErr : Option CaughtError) (w : List Nat) (m : Nat),
    sendLoopGo env retries d l lastErr w m =
      { attempts := m + l.length,
        waits := w ++ l.filterMap (fun i => if 0 < i then some (d * i) else none),
        result := finalFailureResult retries
          (l.foldl (fun _ i => some (caughtOf (env i))) lastErr) } := by
  induction l with
  | nil => intro lastErr w m; simp [sendLoopGo]
  | cons a rest ih =>
    intro lastErr w m
    have ha : retryableOutcome (env a) := hl a (List.mem_cons_self a rest)
    have hrest : ∀ i ∈ rest, retryableOutcome (env i) :=
      fun i hi => hl i (List.mem_cons_of_mem a hi)
    cases henv : env a with
    | setupError msg => rw [henv] at ha; exact absurd ha (fun h => h)
    | noResponse msg =>
      simp only [sendLoopGo, henv]
      rw [ih hrest]
      by_cases h0 : 0 < a <;>
        simp [h0, henv, caughtOf, List.filterMap_cons, List.append_assoc] <;>
        omega
    | response s body =>
      have hs : 500 ≤ s := by rw [henv] at ha; exact ha
      have h2 : ¬ (200 ≤ s ∧ s < 300) := by omega
      have h4 : ¬ (400 ≤ s ∧ s < 500) := by omega
      have h5 : ¬ (s < 500) := by omega
      simp only [sendLoopGo, henv, if_neg h2, if_neg h4, if_neg h5]
      rw [ih hrest]
      by_cases h0 : 0 < a <;>
        simp [h0, henv, caughtOf, List.filterMap_cons, List.append_assoc] <;>
        omega

/-- The backoffs awaited over attempt indices `0..n` are
`d·1, d·2, …, d·n` (the index-0 attempt sleeps nothing). -/
lemma filterMap_range_backoffs (d n : Nat) :
    (List.range (n + 1)).filterMap (fun i => if 0 < i then some (d * i) else none) =
      (List.range n).map (fun j => d * (j + 1)) := by
  induction n with
  | zero => rfl
  | succ k ih =>
    rw [List.range_succ (n := k + 1), List.filterMap_append, ih,
      List.range_succ (n := k), List.map_append]
    simp

/-- Folding "remember the last" over `0..n` remembers `n`. -/
lemma foldl_last_range (g : Nat → Option CaughtError) (n : Nat)
    (init : Option CaughtError) :
    (List.range (n + 1)).foldl (fun _ i => g i) init = g n := by
  rw [List.range_succ, List.foldl_append]
  rfl

/-- C3 (amended): when every attempt meets a 5xx response or no response,
the sender makes exactly `retries + 1` HTTP attempts, sleeping
`retryDelay * attempt` before each retry, and returns the
exhausted-attempts failure; when the first attempt meets a 4xx response
on whose body the diagnostic-and-parse block completes
(`fourXXThrowMsg body = none`), exactly one attempt is made and the
parsed error message is returned immediately, with no retry and no
wait.  (A 4xx body on which that block throws is retried instead — see
`sendInvoice_4xx_null_body_retries`.) -/
theorem sendInvoice_retry_classification :
    (∀ (env : Nat → AttemptOutcome) (retries retryDelay : Nat),
      (∀ i, i ≤ retries → retryableOutcome (env i)) →
      sendInvoice env retries retryDelay =
        { attempts := retries + 1,
          waits := (List.range retries).map (fun j => retryDelay * (j + 1)),
          result := finalFailureResult retries (some (caughtOf (env retries))) }) ∧
    (∀ (env : Nat → AttemptOutcome) (retries retryDelay s : Nat) (body : Json),
      env 0 = .response s body → 400 ≤ s → s < 500 → fourXXThrowMsg body = none →
      sendInvoice env retries retryDelay =
        { attempts := 1, waits := [],
          result := { success := false, data := some body,
                      error := (parseErrorMessageE body).toOption,
                      statusCode := some s } }) := by
  constructor
  · intro env retries retryDelay h
    unfold sendInvoice
    rw [sendLoopGo_retryable env retries retryDelay (List.range (retries + 1))
      (fun i hi => h i (Nat.lt_succ_iff.mp (List.mem_range.mp hi)))]
    rw [filterMap_range_backoffs, foldl_last_range]
    simp
  · intro env retries retryDelay s body henv h4 h5 hth
    unfold sendInvoice
    rw [List.range_succ_eq_map]
    simp only [sendLoopGo, henv]
    have h2 : ¬ (200 ≤ s ∧ s < 300) := by omega
    rw [if_neg h2, if_pos ⟨h4, h5⟩, hth]
    simp

/-- Counterexample to C3 as stated: a persistent 422 whose body is the
JSON literal `null` makes `Object.keys(errorData)` throw before the 4xx
return (factus-sender.ts:179); the `TypeError` carries neither a response
nor a request, so the catch falls through and the loop retries — three
attempts with backoffs 2000 and 4000 ms instead of the claimed single
attempt with no retry. -/
theorem sendInvoice_4xx_null_body_retries :
    (sendInvoice (fun _ => .response 422 .null) 2 2000).attempts = 3 ∧
    (sendInvoice (fun _ => .response 422 .null) 2 2000).waits = [2000, 4000] ∧
    (sendInvoice (fun _ => .response 422 .null) 2 2000).result.success = false ∧
    ¬ ((sendInvoice (fun _ => .response 422 .null) 2 2000).attempts = 1) := by
  decide

/-- A service that always answers 503. -/
def persistent503Env : Nat → AttemptOutcome :=
  fun _ => .response 503 (.obj [("message", .str "Service Unavailable")])

/-- A service that answers 422 with a validation body. -/
def badRequestEnv : Nat → AttemptOutcome :=
  fun _ => .response 422 (.obj [("message", .str "numbering_range_id invalido")])

/-- Witness for C3 at the pipeline's own options (`retries := 2`,
`retryDelay := 2000`): a persistent 503 yields three attempts with backoffs
before the retries, a 422 with a well-formed body yields a single attempt
with the parsed message. -/
theorem sendInvoice_retry_classification_witness :
    sendInvoice persistent503Env 2 2000 =
      { attempts := 2 + 1,
        waits := (List.range 2).map (fun j => 2000 * (j + 1)),
        result := finalFailureResult 2 (some (caughtOf (persistent503Env 2))) } ∧
    sendInvoice badRequestEnv 2 2000 =
      { attempts := 1, waits := [],
        result := { success := false,
                    data := some (.obj [("message", .str "numbering_range_id invalido")]),
                    error := (parseErrorMessageE
                      (.obj [("message", .str "numbering_range_id invalido")])).toOption,
                    statusCode := some 422 } } ∧
    (sendInvoice persistent503Env 2 2000).waits = [2000, 4000] ∧
    (sendInvoice badRequestEnv 2 2000).result.error =
      some "numbering_range_id invalido" :=
  ⟨sendInvoice_retry_classification.1 persistent503Env 2 2000
      (fun i _ => by simp [persistent503Env, retryableOutcome]),
    sendInvoice_retry_classification.2 badRequestEnv 2 2000 422
      (.obj [("message", .str "numbering_range_id invalido")]) rfl (by decide) (by decide)
      (by decide),
    by decide, by decide⟩

/-!
## Field Mapper: line-item consolidation

Translated from `src/api/factus/services/mapper.ts` (lines 45–63): items
are folded into an insertion-ordered `Map` keyed by
`item.product?.id || item.id`; a repeated key adds
`(existing.cantidad || 1) + (item.cantidad || 1)` onto the stored item, a
fresh key stores `{...item, cantidad: item.cantidad || 1}`; the
consolidated list is the map's values in insertion order.
-/

/-- A raw invoice line item as the mapper sees it: its own id, the id of
its populated product (if any), its quantity, and all its remaining fields
bundled opaquely in `rest` (they are copied verbatim by the spread). -/
structure RawItem (α : Type) where
  id : Nat
  productId : Option Nat
  cantidad : Option Int
  rest : α
deriving Repr

/-- `item.product?.id || item.id` (a missing product or a falsy product id
falls back to the item's own id). -/
def itemKey {α : Type} (it : RawItem α) : Nat :=
  match it.productId with
  | some p => if p = 0 then it.id else p
  | none => it.id

/-- `x || 1` on a quantity. -/
def jsQty : Option Int → Int
  | some q => if q = 0 then 1 else q
  | none => 1

/-- One step of the deduplicating fold over the insertion-ordered map. -/
def upsertItem {α : Type} (acc : List (Nat × RawItem α)) (it : RawItem α) :
    List (Nat × RawItem α) :=
  let k := itemKey it
  if (acc.find? (fun p => p.1 == k)).isSome then
    acc.map (fun p =>
      if p.1 == k then
        (p.1, { p.2 with cantidad := some (jsQty p.2.cantidad + jsQty it.cantidad) })
      else p)
  else acc ++ [(k, { it with cantidad := some (jsQty it.cantidad) })]

/-- The consolidation step: `Array.from(uniqueItemsMap.values())`. -/
def consolidateItems {α : Type} (items : List (RawItem α)) : List (RawItem α) :=
  (items.foldl upsertItem []).map (·.2)

/-- The stored entry for key `k`. -/
def findEntry {α : Type} (acc : List (Nat × RawItem α)) (k : Nat) :
    Option (RawItem α) :=
  (acc.find? (fun p => p.1 == k)).map (·.2)

/-- Sum of the effective (`|| 1`) quantities of a run of items. -/
def sumQty {α : Type} (l : List (RawItem α)) : Int :=
  (l.map (fun it => jsQty it.cantidad)).sum

/-- A present positive quantity survives `|| 1` unchanged. -/
lemma jsQty_some_pos {q : Int} (h : 0 < q) : jsQty (some q) = q := by
  simp only [jsQty]
  rw [if_neg (by omega)]

/-- The key ignores the quantity field. -/
lemma itemKey_set_cantidad {α : Type} (it : RawItem α) (c : Option Int) :
    itemKey { it with cantidad := c } = itemKey it := rfl

/-- Searching by key commutes with a key-preserving rewrite of the
entries. -/
lemma find?_map_fst {β : Type} (acc : List (Nat × β)) (g : Nat × β → Nat × β)
    (hg : ∀ p, (g p).1 = p.1) (k : Nat) :
    (acc.map g).find? (fun p => p.1 == k) =
      (acc.find? (fun p => p.1 == k)).map g := by
  induction acc with
  | nil => rfl
  | cons a l ih =>
    simp only [List.map_cons, List.find?_cons]
    rw [hg a]
    by_cases h : a.1 == k <;> simp [h, ih]

/-- The hit branch of `upsertItem`. -/
lemma upsertItem_hit {α : Type} (acc : List (Nat × RawItem α)) (it : RawItem α)
    (hf : (acc.find? (fun p => p.1 == itemKey it)).isSome) :
    upsertItem acc it = acc.map (fun p =>
      if p.1 == itemKey it then
        (p.1, { p.2 with cantidad := some (jsQty p.2.cantidad + jsQty it.cantidad) })
      else p) := by
  simp only [upsertItem, hf, if_true]

/-- The miss branch of `upsertItem`. -/
lemma upsertItem_miss {α : Type} (acc : List (Nat × RawItem α)) (it : RawItem α)
    (hf : ¬ (acc.find? (fun p => p.1 == itemKey it)).isSome) :
    upsertItem acc it =
      acc ++ [(itemKey it, { it with cantidad := some (jsQty it.cantidad) })] := by
  simp only [upsertItem]
  rw [if_neg hf]

/-- The keys after an upsert: unchanged on a hit, the new key appended on a
miss. -/
lemma upsert_keys {α : Type} (acc : List (Nat × RawItem α)) (it : RawItem α) :
    (upsertItem acc it).map (·.1) =
      if (acc.find? (fun p => p.1 == itemKey it)).isSome then acc.map (·.1)
      else acc.map (·.1) ++ [itemKey it] := by
  by_cases hf : (acc.find? (fun p => p.1 == itemKey it)).isSome
  · rw [upsertItem_hit acc it hf, if_pos hf, List.map_map]
    congr 1
    funext p
    by_cases hp : p.1 = itemKey it <;> simp [hp]
  · rw [upsertItem_miss acc it hf, if_neg hf]
    simp

/-- Key distinctness is preserved by the fold. -/
lemma upsert_nodup {α : Type} (acc : List (Nat × RawItem α)) (it : RawItem α)
    (h : (acc.map (·.1)).Nodup) : ((upsertItem acc it).map (·.1)).Nodup := by
  rw [upsert_keys]
  split_ifs with hf
  · exact h
  · rw [List.nodup_append]
    refine ⟨h, List.nodup_singleton _, ?_⟩
    intro a ha hb
    rw [List.mem_singleton] at hb
    subst hb
    rw [List.mem_map] at ha
    obtain ⟨p, hp, hpk⟩ := ha
    have := List.find?_eq_none.mp (Option.not_isSome_iff_eq_none.mp hf) p hp
    simp [hpk] at this

/-- Every stored entry's item still carries its own key. -/
lemma upsert_keyconsistent {α : Type} (acc : List (Nat × RawItem α))
    (it : RawItem α) (h : ∀ p ∈ acc, itemKey p.2 = p.1) :
    ∀ p ∈ upsertItem acc it, itemKey p.2 = p.1 := by
  by_cases hf : (acc.find? (fun p => p.1 == itemKey it)).isSome
  · rw [upsertItem_hit acc it hf]
    intro p hp
    rw [List.mem_map] at hp
    obtain ⟨q, hq, rfl⟩ := hp
    by_cases hqk : q.1 = itemKey it <;>
      simp [hqk, itemKey_set_cantidad, h q hq]
  · rw [upsertItem_miss acc it hf]
    intro p hp
    rw [List.mem_append] at hp
    rcases hp with hp | hp
    · exact h p hp
    · rw [List.mem_singleton] at hp
      subst hp
      exact itemKey_set_cantidad it _

/-- Stored quantities stay positive when the incoming item's quantity is
positive. -/
lemma upsert_pos {α : Type} (acc : List (Nat × RawItem α)) (it : RawItem α)
    (hit : ∃ q, it.cantidad = some q ∧ 0 < q)
    (h : ∀ p ∈ acc, ∃ q, (p.2).cantidad = some q ∧ 0 < q) :
    ∀ p ∈ upsertItem acc it, ∃ q, (p.2).cantidad = some q ∧ 0 < q := by
  obtain ⟨q1, hq1, hq1pos⟩ := hit
  by_cases hf : (acc.find? (fun p => p.1 == itemKey it)).isSome
  · rw [upsertItem_hit acc it hf]
    intro p hp
    rw [List.mem_map] at hp
    obtain ⟨r, hr, rfl⟩ := hp
    obtain ⟨q0, hq0, hq0pos⟩ := h r hr
    by_cases hrk : r.1 = itemKey it
    · refine ⟨jsQty r.2.cantidad + jsQty it.cantidad, by simp [hrk], ?_⟩
      rw [hq0, hq1, jsQty_some_pos hq0pos, jsQty_some_pos hq1pos]
      omega
    · exact ⟨q0, by simp [hrk, hq0], hq0pos⟩
  · rw [upsertItem_miss acc it hf]
    intro p hp
    rw [List.mem_append] at hp
    rcases hp with hp | hp
    · exact h p hp
    · rw [List.mem_singleton] at hp
      subst hp
      exact ⟨q1, by simp [hq1, jsQty_some_pos hq1pos], hq1pos⟩

/-- How one upsert changes the entry stored at key `k`. -/
lemma findEntry_upsert {α : Type} (acc : List (Nat × RawItem α)) (it : RawItem α)
    (k : Nat) :
    findEntry (upsertItem acc it) k =
      if itemKey it = k then
        match findEntry acc k with
        | some e => some { e with cantidad := some (jsQty e.cantidad + jsQty it.cantidad) }
        | none => some { it with cantidad := some (jsQty it.cantidad) }
      else findEntry acc k := by
  by_cases hf : (acc.find? (fun p => p.1 == itemKey it)).isSome
  · rw [upsertItem_hit acc it hf]
    unfold findEntry
    rw [find?_map_fst _ _ (fun p => by by_cases hp : p.1 = itemKey it <;> simp [hp]) k]
    by_cases hk : itemKey it = k
    · subst hk
      obtain ⟨q, hq⟩ := Option.isSome_iff_exists.mp hf
      rw [hq]
      have hq1 : q.1 = itemKey it := by simpa using List.find?_some hq
      simp [hq1]
    · rw [if_neg hk]
      cases hq : acc.find? (fun p => p.1 == k) with
      | none => simp
      | some q =>
        have hq1 : q.1 = k := by simpa using List.find?_some hq
        have : ¬ q.1 = itemKey it := by rw [hq1]; exact fun h => hk h.symm
        simp [this]
  · rw [upsertItem_miss acc it hf]
    unfold findEntry
    rw [List.find?_append]
    by_cases hk : itemKey it = k
    · subst hk
      rw [Option.not_isSome_iff_eq_none.mp hf]
      simp [List.find?]
    · rw [if_neg hk]
      have : ([(itemKey it, { it with cantidad := some (jsQty it.cantidad) })].find?
          (fun p => p.1 == k)) = none := by
        simp only [List.find?]
        rw [show (itemKey it == k) = false from beq_eq_false_iff_ne.mpr hk]
      rw [this]
      cases hq : acc.find? (fun p => p.1 == k) <;> simp

lemma sumQty_cons {α : Type} (a : RawItem α) (fs : List (RawItem α)) :
    sumQty (a :: fs) = jsQty a.cantidad + sumQty fs := by
  simp [sumQty]

/-- Updating the quantity to its current value is the identity. -/
lemma set_cantidad_self {α : Type} (e : RawItem α) {q : Int}
    (h : e.cantidad = some q) : { e with cantidad := some q } = e := by
  obtain ⟨i, p, c, r⟩ := e
  simp only at h
  rw [h]

/-- A found entry is positive when all stored entries are. -/
lemma findEntry_pos {α : Type} (acc : List (Nat × RawItem α)) (k : Nat)
    (e : RawItem α) (he : findEntry acc k = some e)
    (hacc : ∀ p ∈ acc, ∃ q, (p.2).cantidad = some q ∧ 0 < q) :
    ∃ q, e.cantidad = some q ∧ 0 < q := by
  unfold findEntry at he
  obtain ⟨p, hp, hpe⟩ := Option.map_eq_some'.mp he
  exact hpe ▸ hacc p (List.mem_of_find?_eq_some hp)

/-- The stored entry for `k` after folding the whole item list: the first
occurrence with its quantity replaced by the accumulated effective sum. -/
lemma findEntry_foldl {α : Type} (l : List (RawItem α)) :
    ∀ (acc : List (Nat × RawItem α)) (k : Nat),
    (∀ it ∈ l, ∃ q, it.cantidad = some q ∧ 0 < q) →
    (∀ p ∈ acc, ∃ q, (p.2).cantidad = some q ∧ 0 < q) →
    findEntry (l.foldl upsertItem acc) k =
      match findEntry acc k, l.filter (fun it => itemKey it == k) with
      | some e, fs => some { e with cantidad := some (jsQty e.cantidad + sumQty fs) }
      | none, [] => none
      | none, f :: fs => some { f with cantidad := some (jsQty f.cantidad + sumQty fs) } := by
  induction l with
  | nil =>
    intro acc k _ hacc
    simp only [List.foldl_nil, List.filter_nil]
    cases he : findEntry acc k with
    | none => rfl
    | some e =>
      obtain ⟨q0, hq0, hq0pos⟩ := findEntry_pos acc k e he hacc
      simp only [hq0, jsQty_some_pos hq0pos, sumQty, List.map_nil, List.sum_nil, add_zero]
      rw [set_cantidad_self e hq0]
  | cons a l ih =>
    intro acc k hl hacc
    have ha : ∃ q, a.cantidad = some q ∧ 0 < q := hl a (List.mem_cons_self a l)
    obtain ⟨q1, hq1, hq1pos⟩ := ha
    have hl' : ∀ it ∈ l, ∃ q, it.cantidad = some q ∧ 0 < q :=
      fun it h => hl it (List.mem_cons_of_mem a h)
    have hacc' := upsert_pos acc a ⟨q1, hq1, hq1pos⟩ hacc
    rw [List.foldl_cons, ih (upsertItem acc a) k hl' hacc', findEntry_upsert]
    by_cases hk : itemKey a = k
    · rw [if_pos hk, List.filter_cons_of_pos (by simp [hk])]
      cases he : findEntry acc k with
      | some e =>
        obtain ⟨q0, hq0, hq0pos⟩ := findEntry_pos acc k e he hacc
        have hsum : jsQty (some (q0 + q1)) = q0 + q1 := jsQty_some_pos (by omega)
        simp only [hq0, hq1, jsQty_some_pos hq0pos, jsQty_some_pos hq1pos, sumQty_cons,
          hsum, add_assoc]
      | none =>
        have hsum : jsQty (some q1) = q1 := jsQty_some_pos hq1pos
        simp only [hq1, jsQty_some_pos hq1pos, sumQty_cons, hsum]
    · rw [if_neg hk, List.filter_cons_of_neg (by simp [hk])]

lemma foldl_upsert_nodup {α : Type} (l : List (RawItem α)) :
    ∀ acc : List (Nat × RawItem α), (acc.map (·.1)).Nodup →
      ((l.foldl upsertItem acc).map (·.1)).Nodup := by
  induction l with
  | nil => exact fun acc h => h
  | cons a l ih => exact fun acc h => ih _ (upsert_nodup acc a h)

lemma foldl_upsert_keyconsistent {α : Type} (l : List (RawItem α)) :
    ∀ acc : List (Nat × RawItem α), (∀ p ∈ acc, itemKey p.2 = p.1) →
      ∀ p ∈ l.foldl upsertItem acc, itemKey p.2 = p.1 := by
  induction l with
  | nil => exact fun acc h => h
  | cons a l ih => exact fun acc h => ih _ (upsert_keyconsistent acc a h)

/-- With distinct, consistent keys, filtering the stored items by key is
exactly the looked-up entry. -/
lemma filter_eq_findEntry_toList {α : Type} (acc : List (Nat × RawItem α)) (k : Nat)
    (hnd : (acc.map (·.1)).Nodup) (hkc : ∀ p ∈ acc, itemKey p.2 = p.1) :
    (acc.map (·.2)).filter (fun it => itemKey it == k) = (findEntry acc k).toList := by
  induction acc with
  | nil => rfl
  | cons p acc' ih =>
    have hpk : itemKey p.2 = p.1 := hkc p (List.mem_cons_self p acc')
    have hnd' : (acc'.map (·.1)).Nodup := (List.nodup_cons.mp hnd).2
    have hkc' : ∀ q ∈ acc', itemKey q.2 = q.1 :=
      fun q hq => hkc q (List.mem_cons_of_mem p hq)
    rw [List.map_cons, List.filter_cons]
    unfold findEntry
    rw [List.find?_cons]
    by_cases hk : p.1 = k
    · have hcond : (itemKey p.2 == k) = true := by rw [hpk, hk]; exact beq_self_eq_true k
      have hfind : (p.1 == k) = true := by rw [hk]; exact beq_self_eq_true k
      have hrest : (acc'.map (·.2)).filter (fun it => itemKey it == k) = [] := by
        rw [List.filter_eq_nil_iff]
        intro b hb
        rw [List.mem_map] at hb
        obtain ⟨q, hq, rfl⟩ := hb
        have h2 : q.1 ≠ k := by
          intro h
          refine (List.nodup_cons.mp hnd).1 ?_
          have : q.1 ∈ acc'.map (·.1) := List.mem_map_of_mem (·.1) hq
          rw [h, ← hk] at this
          exact this
        simp [hkc' q hq, h2]
      simp [hcond, hfind, hrest]
    · have hcond : (itemKey p.2 == k) = false := by
        rw [hpk]; exact beq_eq_false_iff_ne.mpr hk
      have hfind : (p.1 == k) = false := beq_eq_false_iff_ne.mpr hk
      rw [hcond, hfind]
      simpa [findEntry] using ih hnd' hkc'

/-- C5: every group of line items sharing a product identifier consolidates
into the group's first occurrence with its quantity replaced by the sum of
the group's quantities (so all other fields are the first occurrence's). -/
theorem consolidateItems_spec {α : Type} (items : List (RawItem α)) (k : Nat)
    (hpos : ∀ it ∈ items, ∃ q, it.cantidad = some q ∧ 0 < q)
    (f : RawItem α) (fs : List (RawItem α))
    (hocc : items.filter (fun it => itemKey it == k) = f :: fs) :
    (consolidateItems items).filter (fun it => itemKey it == k) =
      [{ f with
          cantidad := some (((f :: fs).map (fun it => it.cantidad.getD 0)).sum) }] := by
  have hsub : ∀ it ∈ f :: fs, it ∈ items := by
    intro it hit
    rw [← hocc] at hit
    exact (List.mem_filter.mp hit).1
  have hgetd : ∀ it ∈ f :: fs, jsQty it.cantidad = it.cantidad.getD 0 := by
    intro it hit
    obtain ⟨q, hq, hqpos⟩ := hpos it (hsub it hit)
    rw [hq, jsQty_some_pos hqpos]
    rfl
  have hsum : ∀ (l' : List (RawItem α)), (∀ it ∈ l', jsQty it.cantidad = it.cantidad.getD 0) →
      sumQty l' = (l'.map (fun it => it.cantidad.getD 0)).sum := by
    intro l' h
    unfold sumQty
    congr 1
    exact List.map_congr_left h
  rw [consolidateItems,
    filter_eq_findEntry_toList _ k (foldl_upsert_nodup items [] (by simp))
      (foldl_upsert_keyconsistent items [] (by simp)),
    findEntry_foldl items [] k hpos (by simp)]
  have hnil : findEntry ([] : List (Nat × RawItem α)) k = none := rfl
  rw [hnil, hocc]
  simp only [Option.toList_some]
  congr 2
  rw [hgetd f (List.mem_cons_self f fs),
    hsum fs (fun it hit => hgetd it (List.mem_cons_of_mem f hit)),
    List.map_cons, List.sum_cons]

/-- The spec scenario's two line items: same product, quantities 2 and 3. -/
def itemA : RawItem Unit := { id := 1, productId := some 7, cantidad := some 2, rest := () }

def itemB : RawItem Unit := { id := 2, productId := some 7, cantidad := some 3, rest := () }

/-- Witness for C5: the two items consolidate into one item carrying the
first occurrence's fields and quantity 2 + 3 = 5. -/
theorem consolidateItems_spec_witness :
    (consolidateItems [itemA, itemB]).filter (fun it => itemKey it == 7) =
      [{ itemA with
          cantidad := some ((([itemA, itemB] : List (RawItem Unit)).map
            (fun it => it.cantidad.getD 0)).sum) }] ∧
    consolidateItems [itemA, itemB] = [{ itemA with cantidad := some 5 }] :=
  ⟨consolidateItems_spec [itemA, itemB] 7
      (by
        intro it hit
        rw [List.mem_cons, List.mem_singleton] at hit
        rcases hit with rfl | rfl
        · exact ⟨2, rfl, by norm_num⟩
        · exact ⟨3, rfl, by norm_num⟩)
      itemA [itemB] rfl,
    rfl⟩

end Factus
